import Mathlib

/-
Verification of src/backend/src/scripts/youtube_transcript_fetcher.py.

The script is embedded shallowly: the optional proxy configuration is a
JSON-like Python value with Python truthiness, membership and subscript
semantics; the external youtube-transcript-api library is an oracle
(Env) whose constructors and fetch call may either return a value or
raise, raising being modelled by Except.error carrying the textual
description of the exception; start and duration values are rationals.
fetch_transcript additionally records the trace of calls it makes into
the external library, so that statements about which client path was
taken can be expressed.
-/

namespace YoutubeTranscriptFetcher

/-- One transcript segment as exposed by the external fetch call:
fields text, start, duration (seconds). -/
structure Snippet where
  text : String
  start : ℚ
  duration : ℚ
deriving DecidableEq, Repr

/-- A Python value as can flow into the proxy_config parameter
(None, or anything json.loads can produce). -/
inductive PyValue where
  | pnone
  | pbool (b : Bool)
  | pnum (q : ℚ)
  | pstr (s : String)
  | plist (xs : List PyValue)
  | pdict (entries : List (String × PyValue))
deriving Repr

/-- Python truthiness of a value, as used by the line
if proxy_config and ... in fetch_transcript. -/
def pyTruthy : PyValue → Bool
  | .pnone => false
  | .pbool b => b
  | .pnum q => q != 0
  | .pstr s => s != ""
  | .plist xs => !xs.isEmpty
  | .pdict es => !es.isEmpty

/-- Python equality of a value with a string (only a string compares
equal to a string). -/
def pyEqStr : PyValue → String → Bool
  | .pstr s, k => s == k
  | _, _ => false

/-- The Python membership test k in v for a string key k: key lookup
on a dict, substring test on a string, element equality on a list, and
a TypeError (modelled as Except.error) on values that are not
iterable. -/
def pyContains (v : PyValue) (k : String) : Except String Bool :=
  match v with
  | .pdict es => .ok (es.any (fun p => p.1 == k))
  | .pstr s => .ok (decide (List.IsInfix k.toList s.toList))
  | .plist xs => .ok (xs.any (fun x => pyEqStr x k))
  | .pnum _ => .error "argument of type float is not iterable"
  | .pbool _ => .error "argument of type bool is not iterable"
  | .pnone => .error "argument of type NoneType is not iterable"

/-- The Python subscript v[k] for a string key k: lookup on a dict
(KeyError when missing), a TypeError on every other value. -/
def pyGetItem (v : PyValue) (k : String) : Except String PyValue :=
  match v with
  | .pdict es =>
    match es.find? (fun p => p.1 == k) with
    | some p => .ok p.2
    | none => .error ("KeyError: " ++ k)
  | .pstr _ => .error "string indices must be integers"
  | .plist _ => .error "list indices must be integers or slices, not str"
  | .pnum _ => .error "float object is not subscriptable"
  | .pbool _ => .error "bool object is not subscriptable"
  | .pnone => .error "NoneType object is not subscriptable"

/-- The calls fetch_transcript can make into the external library. -/
inductive Event where
  | webshareProxyConfig (username password : PyValue)
  | apiConstructed (withProxy : Bool)
  | fetchCalled (withProxy : Bool) (video_id : String)
deriving Repr

/-- Whether an event belongs to the proxy-aware client path. -/
def Event.isProxy : Event → Bool
  | .webshareProxyConfig _ _ => true
  | .apiConstructed b => b
  | .fetchCalled b _ => b

/-- Oracle for the external youtube-transcript-api library: the
WebshareProxyConfig constructor, the YouTubeTranscriptApi constructor
(with or without proxy) and the fetch call, each of which may raise. -/
structure Env where
  webshareInit : PyValue → PyValue → Except String Unit
  apiInit : Bool → Except String Unit
  apiFetch : Bool → String → Except String (List Snippet)

/-- Construct the YouTubeTranscriptApi client (with or without proxy)
and call fetch on it, recording the calls made. -/
def runFetch (env : Env) (withProxy : Bool) (video_id : String) :
    List Event × Except String (List Snippet) :=
  match env.apiInit withProxy with
  | .error e => ([Event.apiConstructed withProxy], .error e)
  | .ok _ =>
    match env.apiFetch withProxy video_id with
    | .error e =>
      ([Event.apiConstructed withProxy, Event.fetchCalled withProxy video_id], .error e)
    | .ok ts =>
      ([Event.apiConstructed withProxy, Event.fetchCalled withProxy video_id], .ok ts)

/-- The proxy branch of fetch_transcript: evaluate the two subscripts,
construct WebshareProxyConfig, then the proxy-aware client, then
fetch. Any raise aborts the branch with the exception text. -/
def proxyPath (env : Env) (video_id : String) (proxy_config : PyValue) :
    List Event × Except String (List Snippet) :=
  match pyGetItem proxy_config "proxy_username" with
  | .error e => ([], .error e)
  | .ok u =>
    match pyGetItem proxy_config "proxy_password" with
    | .error e => ([], .error e)
    | .ok p =>
      match env.webshareInit u p with
      | .error e => ([Event.webshareProxyConfig u p], .error e)
      | .ok _ =>
        let r := runFetch env true video_id
        (Event.webshareProxyConfig u p :: r.1, r.2)

/-- The client-selection and fetch part of fetch_transcript (the body
of its try block up to obtaining transcript_list): the proxy branch is
taken when proxy_config is truthy and both membership tests succeed
and return true; otherwise, when the membership tests themselves do
not raise, the default branch is taken. -/
def clientAndFetch (env : Env) (video_id : String) (proxy_config : PyValue) :
    List Event × Except String (List Snippet) :=
  if pyTruthy proxy_config then
    match pyContains proxy_config "proxy_username" with
    | .error e => ([], .error e)
    | .ok hasU =>
      if hasU then
        match pyContains proxy_config "proxy_password" with
        | .error e => ([], .error e)
        | .ok hasP =>
          if hasP then proxyPath env video_id proxy_config
          else runFetch env false video_id
      else runFetch env false video_id
  else runFetch env false video_id

/-- Copy a fetched segment into a plain record holding its text, start
and duration fields (the snippet_dict of the source). -/
def snippetToDict (s : Snippet) : Snippet :=
  { text := s.text, start := s.start, duration := s.duration }

/-- Python truthiness of a sequence, as used by the lines
if transcript_list: and if snippets_list:. -/
def listTruthy {α : Type} (xs : List α) : Bool :=
  !xs.isEmpty

/-- The result record fetch_transcript returns. -/
inductive TranscriptResult where
  | success (video_id : String) (snippets : List Snippet)
      (total_duration : ℚ) (snippet_count : ℕ)
  | failure (video_id : String) (error : String)
deriving DecidableEq, Repr

/-- The video_id field of a result, present in both variants. -/
def TranscriptResult.videoId : TranscriptResult → String
  | .success v _ _ _ => v
  | .failure v _ => v

/-- Shape the fetched segment sequence into the success variant:
total_duration starts at 0; when transcript_list is truthy the
segments are copied in order into snippets_list and, when
snippets_list is truthy, total_duration becomes start + duration of
its last element; snippet_count is the length of snippets_list. -/
def shapeResult (video_id : String) (transcript_list : List Snippet) : TranscriptResult :=
  let snippets_list : List Snippet :=
    if listTruthy transcript_list then transcript_list.map snippetToDict else []
  let total_duration : ℚ :=
    if listTruthy transcript_list then
      if listTruthy snippets_list then
        match snippets_list.getLast? with
        | some last => last.start + last.duration
        | none => 0
      else 0
    else 0
  .success video_id snippets_list total_duration snippets_list.length

/-- fetch_transcript of the source: select the client, fetch, shape the
result; any exception raised inside the try block is caught and turned
into the failure variant carrying the exception text. The list of
events records the calls made into the external library. -/
def fetch_transcript (env : Env) (video_id : String) (proxy_config : PyValue) :
    TranscriptResult × List Event :=
  let r := clientAndFetch env video_id proxy_config
  match r.2 with
  | .ok transcript_list => (shapeResult video_id transcript_list, r.1)
  | .error e => (TranscriptResult.failure video_id e, r.1)

/-- Oracle for the operating-system facing effects of main: json.loads
on the third argument (Option.none when it raises JSONDecodeError) and
opening and writing the output file (Except.error carrying the
exception text when it raises). -/
structure OSEnv where
  jsonLoads : String → Option PyValue
  openWrite : String → Except String Unit

/-- One completed json.dump call: target file, the dumped result, and
the ensure_ascii and indent arguments it was given. -/
structure WriteRecord where
  file : String
  payload : TranscriptResult
  ensureAscii : Bool
  indent : ℕ
deriving Repr

/-- Observable outcome of one run of main: process exit code, lines
printed to stderr and stdout, the completed write if any, and whether
fetch_transcript was invoked. -/
structure MainOutcome where
  exitCode : ℕ
  stderrLines : List String
  stdoutLines : List String
  written : Option WriteRecord
  fetchInvoked : Bool
deriving Repr

/-- The usage message of main. -/
def usageMessage : String :=
  "Usage: python youtube_transcript_fetcher.py <video_id> <output_file> [proxy_config_json]"

/-- The tail of main after fetch_transcript returned: try to write the
result to the output file as UTF-8 JSON with ensure_ascii=False and
indent=2; on success print the confirmation line and finish with exit
code 0, on a raise print the error line to stderr and exit 1. -/
def writeAndReport (os : OSEnv) (output_file : String) (result : TranscriptResult) :
    MainOutcome :=
  match os.openWrite output_file with
  | .ok _ =>
    { exitCode := 0
      stderrLines := []
      stdoutLines := ["Transcript data written to " ++ output_file]
      written := some { file := output_file, payload := result,
                        ensureAscii := false, indent := 2 }
      fetchInvoked := true }
  | .error e =>
    { exitCode := 1
      stderrLines := ["Error writing to output file: " ++ e]
      stdoutLines := []
      written := Option.none
      fetchInvoked := true }

/-- main of the source, over the argument vector (argv 0 is the program
name): fewer than 3 entries means usage message and exit 1; a fourth
entry is parsed as JSON, a parse failure means the invalid-JSON message
and exit 1; otherwise fetch and write. -/
def main (env : Env) (os : OSEnv) (argv : List String) : MainOutcome :=
  if argv.length < 3 then
    { exitCode := 1, stderrLines := [usageMessage], stdoutLines := [],
      written := Option.none, fetchInvoked := false }
  else
    let video_id := argv.getD 1 ""
    let output_file := argv.getD 2 ""
    if 3 < argv.length then
      match os.jsonLoads (argv.getD 3 "") with
      | Option.none =>
        { exitCode := 1, stderrLines := ["Invalid proxy configuration JSON"],
          stdoutLines := [], written := Option.none, fetchInvoked := false }
      | some cfg =>
        writeAndReport os output_file (fetch_transcript env video_id cfg).1
    else
      writeAndReport os output_file (fetch_transcript env video_id PyValue.pnone).1

/-- The proxy configuration main resolves before fetching: pnone when
no third argument is given, otherwise the parse of the third argument
(Option.none when parsing raises). -/
def parsedProxy (os : OSEnv) (argv : List String) : Option PyValue :=
  if 3 < argv.length then os.jsonLoads (argv.getD 3 "") else some PyValue.pnone

/-- Whether a value is a Python dict (a mapping supporting key lookup). -/
def PyValue.isDict : PyValue → Bool
  | .pdict _ => true
  | _ => false

/-- Whether a value is a dict holding both the proxy_username and the
proxy_password key. -/
def dictWithBothCreds : PyValue → Bool
  | .pdict es =>
    (es.any fun p => p.1 == "proxy_username") && (es.any fun p => p.1 == "proxy_password")
  | _ => false

/-- Sample oracle: every construction succeeds and the fetch returns the
single segment (text hi, start 2, duration 3). -/
def envOk : Env :=
  ⟨fun _ _ => .ok (), fun _ => .ok (), fun _ _ => .ok [⟨"hi", 2, 3⟩]⟩

/-- Sample oracle: constructions succeed, the fetch raises. -/
def envRaise : Env :=
  ⟨fun _ _ => .ok (), fun _ => .ok (), fun _ _ => .error "video unavailable"⟩

/-- Sample OS oracle: JSON parsing and the file write both succeed. -/
def osOk : OSEnv :=
  ⟨fun _ => some PyValue.pnone, fun _ => .ok ()⟩

/-- Sample OS oracle: JSON parsing raises and the file write raises. -/
def osBad : OSEnv :=
  ⟨fun _ => Option.none, fun _ => .error "Permission denied"⟩

lemma fetch_transcript_events (env : Env) (vid : String) (cfg : PyValue) :
    (fetch_transcript env vid cfg).2 = (clientAndFetch env vid cfg).1 := by
  cases h : (clientAndFetch env vid cfg).2 <;> simp [fetch_transcript, h]

lemma fetch_transcript_of_ok (env : Env) (vid : String) (cfg : PyValue)
    (ts : List Snippet) (h : (clientAndFetch env vid cfg).2 = Except.ok ts) :
    (fetch_transcript env vid cfg).1 = shapeResult vid ts := by
  simp [fetch_transcript, h]

lemma fetch_transcript_of_error (env : Env) (vid : String) (cfg : PyValue)
    (e : String) (h : (clientAndFetch env vid cfg).2 = Except.error e) :
    (fetch_transcript env vid cfg).1 = TranscriptResult.failure vid e := by
  simp [fetch_transcript, h]

lemma shapeResult_eq (vid : String) (ts : List Snippet) :
    shapeResult vid ts = TranscriptResult.success vid (ts.map snippetToDict)
      (match (ts.map snippetToDict).getLast? with
       | some last => last.start + last.duration
       | Option.none => 0)
      (ts.map snippetToDict).length := by
  cases ts with
  | nil => rfl
  | cons a l => simp [shapeResult, listTruthy]

lemma fetch_transcript_success_inv (env : Env) (vid : String) (cfg : PyValue)
    (v : String) (snips : List Snippet) (total : ℚ) (cnt : ℕ)
    (h : (fetch_transcript env vid cfg).1 = TranscriptResult.success v snips total cnt) :
    v = vid ∧ ∃ ts, (clientAndFetch env vid cfg).2 = Except.ok ts ∧
      snips = ts.map snippetToDict ∧
      total = (match snips.getLast? with
               | some last => last.start + last.duration
               | Option.none => 0) ∧
      cnt = snips.length := by
  cases hc : (clientAndFetch env vid cfg).2 with
  | error e =>
    rw [fetch_transcript_of_error env vid cfg e hc] at h
    exact absurd h (by simp)
  | ok ts =>
    rw [fetch_transcript_of_ok env vid cfg ts hc, shapeResult_eq] at h
    injection h with h1 h2 h3 h4
    subst h1
    subst h2
    subst h4
    exact ⟨rfl, ts, rfl, rfl, h3.symm, rfl⟩

/-- C1: a success result has total_duration 0 when snippets is empty,
and start + duration of the last snippet otherwise. -/
theorem C1_total_duration_invariant (env : Env) (vid : String) (cfg : PyValue)
    (v : String) (snips : List Snippet) (total : ℚ) (cnt : ℕ)
    (h : (fetch_transcript env vid cfg).1 = TranscriptResult.success v snips total cnt) :
    (snips = [] → total = 0) ∧
    (∀ last, snips.getLast? = some last → total = last.start + last.duration) := by
  obtain ⟨-, ts, -, -, htot, -⟩ := fetch_transcript_success_inv env vid cfg v snips total cnt h
  constructor
  · intro he
    rw [he] at htot
    exact htot
  · intro last hl
    rw [hl] at htot
    exact htot

/-- Witness for C1 at a concrete oracle whose fetch returns one segment. -/
theorem C1_total_duration_invariant_witness :
    (fetch_transcript envOk "abc123" PyValue.pnone).1 =
      TranscriptResult.success "abc123" [⟨"hi", 2, 3⟩] (2 + 3) 1 ∧
    (([⟨"hi", 2, 3⟩] : List Snippet) = [] → (2 + 3 : ℚ) = 0) ∧
    (∀ last, ([⟨"hi", 2, 3⟩] : List Snippet).getLast? = some last →
      (2 + 3 : ℚ) = last.start + last.duration) :=
  ⟨rfl, C1_total_duration_invariant envOk "abc123" PyValue.pnone
    "abc123" [⟨"hi", 2, 3⟩] (2 + 3) 1 rfl⟩

/-- C2: a success result has snippet_count equal to the length of
snippets. -/
theorem C2_snippet_count_is_length (env : Env) (vid : String) (cfg : PyValue)
    (v : String) (snips : List Snippet) (total : ℚ) (cnt : ℕ)
    (h : (fetch_transcript env vid cfg).1 = TranscriptResult.success v snips total cnt) :
    cnt = snips.length := by
  obtain ⟨-, ts, -, -, -, hcnt⟩ := fetch_transcript_success_inv env vid cfg v snips total cnt h
  exact hcnt

/-- Witness for C2 at a concrete oracle whose fetch returns one segment. -/
theorem C2_snippet_count_is_length_witness :
    (fetch_transcript envOk "abc123" PyValue.pnone).1 =
      TranscriptResult.success "abc123" [⟨"hi", 2, 3⟩] (2 + 3) 1 ∧
    1 = ([⟨"hi", 2, 3⟩] : List Snippet).length :=
  ⟨rfl, C2_snippet_count_is_length envOk "abc123" PyValue.pnone
    "abc123" [⟨"hi", 2, 3⟩] (2 + 3) 1 rfl⟩

/-- C3: when client construction or the fetch raises, fetch_transcript
returns the failure variant carrying the exception text, rather than
propagating (the Lean model is a total function, so the equation itself
expresses non-propagation). -/
theorem C3_catch_all_returns_failure (env : Env) (vid : String) (cfg : PyValue)
    (e : String) (h : (clientAndFetch env vid cfg).2 = Except.error e) :
    (fetch_transcript env vid cfg).1 = TranscriptResult.failure vid e :=
  fetch_transcript_of_error env vid cfg e h

/-- Witness for C3 at a concrete oracle whose fetch raises. -/
theorem C3_catch_all_returns_failure_witness :
    (clientAndFetch envRaise "abc123" PyValue.pnone).2 =
      Except.error "video unavailable" ∧
    (fetch_transcript envRaise "abc123" PyValue.pnone).1 =
      TranscriptResult.failure "abc123" "video unavailable" :=
  ⟨rfl, C3_catch_all_returns_failure envRaise "abc123" PyValue.pnone
    "video unavailable" rfl⟩

/-- C9: in both variants, the video_id field of the result equals the
video_id argument, for every oracle behaviour and proxy configuration. -/
theorem C9_video_id_preserved (env : Env) (vid : String) (cfg : PyValue) :
    ((fetch_transcript env vid cfg).1).videoId = vid := by
  cases hc : (clientAndFetch env vid cfg).2 with
  | error e =>
    rw [fetch_transcript_of_error env vid cfg e hc]
    rfl
  | ok ts =>
    rw [fetch_transcript_of_ok env vid cfg ts hc, shapeResult_eq]
    rfl

/-- C5: when the fetch returns a segment sequence, the snippets field of
the success result has the same length and order, its i-th record copies
the text, start and duration fields of the i-th fetched segment, and an
empty fetched sequence yields an empty snippets field. -/
theorem C5_snippets_copy_fetched_segments (env : Env) (vid : String) (cfg : PyValue)
    (ts : List Snippet) (h : (clientAndFetch env vid cfg).2 = Except.ok ts) :
    ∃ snips total,
      (fetch_transcript env vid cfg).1 =
        TranscriptResult.success vid snips total snips.length ∧
      snips.length = ts.length ∧
      (∀ i (hi : i < ts.length) (hs : i < snips.length),
        (snips.get ⟨i, hs⟩).text = (ts.get ⟨i, hi⟩).text ∧
        (snips.get ⟨i, hs⟩).start = (ts.get ⟨i, hi⟩).start ∧
        (snips.get ⟨i, hs⟩).duration = (ts.get ⟨i, hi⟩).duration) ∧
      (ts = [] → snips = []) := by
  refine ⟨ts.map snippetToDict,
    (match (ts.map snippetToDict).getLast? with
     | some last => last.start + last.duration
     | Option.none => 0), ?_, ?_, ?_, ?_⟩
  · rw [fetch_transcript_of_ok env vid cfg ts h, shapeResult_eq]
  · simp
  · intro i hi hs
    simp [List.get_eq_getElem, snippetToDict]
  · intro he
    rw [he]
    rfl

/-- Witness for C5 at a concrete oracle whose fetch returns one segment. -/
theorem C5_snippets_copy_fetched_segments_witness :
    (clientAndFetch envOk "abc123" PyValue.pnone).2 = Except.ok [⟨"hi", 2, 3⟩] ∧
    (∃ snips total,
      (fetch_transcript envOk "abc123" PyValue.pnone).1 =
        TranscriptResult.success "abc123" snips total snips.length ∧
      snips.length = ([⟨"hi", 2, 3⟩] : List Snippet).length ∧
      (∀ i (hi : i < ([⟨"hi", 2, 3⟩] : List Snippet).length) (hs : i < snips.length),
        (snips.get ⟨i, hs⟩).text = (([⟨"hi", 2, 3⟩] : List Snippet).get ⟨i, hi⟩).text ∧
        (snips.get ⟨i, hs⟩).start = (([⟨"hi", 2, 3⟩] : List Snippet).get ⟨i, hi⟩).start ∧
        (snips.get ⟨i, hs⟩).duration =
          (([⟨"hi", 2, 3⟩] : List Snippet).get ⟨i, hi⟩).duration) ∧
      (([⟨"hi", 2, 3⟩] : List Snippet) = [] → snips = [])) :=
  ⟨rfl, C5_snippets_copy_fetched_segments envOk "abc123" PyValue.pnone
    [⟨"hi", 2, 3⟩] rfl⟩

/-- C10: a truthy proxy_config that does not support the membership test
makes the membership check raise; the catch-all absorbs it and the
failure variant is returned, with no client constructed at all. -/
theorem C10_truthy_nonmapping_config_yields_failure (env : Env) (vid : String)
    (cfg : PyValue) (e : String) (ht : pyTruthy cfg = true)
    (he : pyContains cfg "proxy_username" = Except.error e) :
    fetch_transcript env vid cfg = (TranscriptResult.failure vid e, []) := by
  simp [fetch_transcript, clientAndFetch, ht, he]

/-- Witness for C10 at the parsed JSON number 5. -/
theorem C10_truthy_nonmapping_config_yields_failure_witness :
    pyTruthy (PyValue.pnum 5) = true ∧
    pyContains (PyValue.pnum 5) "proxy_username" =
      Except.error "argument of type float is not iterable" ∧
    fetch_transcript envOk "abc123" (PyValue.pnum 5) =
      (TranscriptResult.failure "abc123" "argument of type float is not iterable", []) :=
  ⟨by decide, rfl, C10_truthy_nonmapping_config_yields_failure envOk "abc123"
    (PyValue.pnum 5) "argument of type float is not iterable" (by decide) rfl⟩

lemma runFetch_false_no_proxyEvent (env : Env) (vid : String) :
    (runFetch env false vid).1.any Event.isProxy = false := by
  unfold runFetch
  cases env.apiInit false with
  | error e => rfl
  | ok u =>
    cases env.apiFetch false vid with
    | error e => rfl
    | ok ts => rfl

lemma clientAndFetch_proxy_events (env : Env) (vid : String) (cfg : PyValue) :
    (clientAndFetch env vid cfg).1.any Event.isProxy = dictWithBothCreds cfg := by
  cases cfg with
  | pnone => exact runFetch_false_no_proxyEvent env vid
  | pbool b =>
    cases b with
    | false => exact runFetch_false_no_proxyEvent env vid
    | true => rfl
  | pnum q =>
    cases hq : (q != 0) with
    | false => simp [clientAndFetch, pyTruthy, hq, dictWithBothCreds,
        runFetch_false_no_proxyEvent]
    | true => simp [clientAndFetch, pyTruthy, hq, pyContains, dictWithBothCreds]
  | pstr s =>
    cases hs : (s != "") with
    | false => simp [clientAndFetch, pyTruthy, hs, dictWithBothCreds,
        runFetch_false_no_proxyEvent]
    | true =>
      by_cases hU : List.IsInfix "proxy_username".toList s.toList
      · by_cases hP : List.IsInfix "proxy_password".toList s.toList
        · simp at hU hP
          simp [clientAndFetch, pyTruthy, hs, pyContains, hU, hP,
            dictWithBothCreds, proxyPath, pyGetItem]
        · simp at hU hP
          simp [clientAndFetch, pyTruthy, hs, pyContains, hU, hP,
            dictWithBothCreds, runFetch_false_no_proxyEvent]
      · simp at hU
        simp [clientAndFetch, pyTruthy, hs, pyContains, hU,
          dictWithBothCreds, runFetch_false_no_proxyEvent]
  | plist xs =>
    cases hs : xs.isEmpty with
    | true => simp [clientAndFetch, pyTruthy, hs, dictWithBothCreds,
        runFetch_false_no_proxyEvent]
    | false =>
      cases hU : (xs.any fun x => pyEqStr x "proxy_username") with
      | false => simp [clientAndFetch, pyTruthy, hs, pyContains, hU,
          dictWithBothCreds, runFetch_false_no_proxyEvent]
      | true =>
        cases hP : (xs.any fun x => pyEqStr x "proxy_password") with
        | false => simp [clientAndFetch, pyTruthy, hs, pyContains, hU, hP,
            dictWithBothCreds, runFetch_false_no_proxyEvent]
        | true => simp [clientAndFetch, pyTruthy, hs, pyContains, hU, hP,
            dictWithBothCreds, proxyPath, pyGetItem]
  | pdict es =>
    cases hs : es.isEmpty with
    | true => simp [clientAndFetch, pyTruthy, hs, dictWithBothCreds,
        runFetch_false_no_proxyEvent, List.isEmpty_iff.mp hs]
    | false =>
      cases hU : (es.any fun p => p.1 == "proxy_username") with
      | false => simp [clientAndFetch, pyTruthy, hs, pyContains, hU,
          dictWithBothCreds, runFetch_false_no_proxyEvent]
      | true =>
        cases hP : (es.any fun p => p.1 == "proxy_password") with
        | false => simp [clientAndFetch, pyTruthy, hs, pyContains, hU, hP,
            dictWithBothCreds, runFetch_false_no_proxyEvent]
        | true =>
          have hu : (es.find? fun p => p.1 == "proxy_username").isSome := by
            rw [List.find?_isSome]
            simpa using List.any_eq_true.mp hU
          have hp : (es.find? fun p => p.1 == "proxy_password").isSome := by
            rw [List.find?_isSome]
            simpa using List.any_eq_true.mp hP
          obtain ⟨pu, hpu⟩ := Option.isSome_iff_exists.mp hu
          obtain ⟨pp, hpp⟩ := Option.isSome_iff_exists.mp hp
          cases hw : env.webshareInit pu.2 pp.2 with
          | error e => simp [clientAndFetch, pyTruthy, hs, pyContains, hU, hP,
              dictWithBothCreds, proxyPath, pyGetItem, hpu, hpp, hw, Event.isProxy]
          | ok u => simp [clientAndFetch, pyTruthy, hs, pyContains, hU, hP,
              dictWithBothCreds, proxyPath, pyGetItem, hpu, hpp, hw, Event.isProxy]

lemma clientAndFetch_default_of_absent (env : Env) (vid : String) (cfg : PyValue)
    (h : cfg = PyValue.pnone ∨ (cfg.isDict = true ∧ dictWithBothCreds cfg = false)) :
    clientAndFetch env vid cfg = clientAndFetch env vid PyValue.pnone := by
  rcases h with rfl | ⟨hd, hb⟩
  · rfl
  cases cfg with
  | pdict es =>
    have hnone : clientAndFetch env vid PyValue.pnone = runFetch env false vid := rfl
    rw [hnone]
    cases hs : es.isEmpty with
    | true => simp [clientAndFetch, pyTruthy, hs]
    | false =>
      cases hU : (es.any fun p => p.1 == "proxy_username") with
      | false => simp [clientAndFetch, pyTruthy, hs, pyContains, hU]
      | true =>
        cases hP : (es.any fun p => p.1 == "proxy_password") with
        | false => simp [clientAndFetch, pyTruthy, hs, pyContains, hU, hP]
        | true => simp [dictWithBothCreds, hU, hP] at hb
  | pnone => simp [PyValue.isDict] at hd
  | pbool b => simp [PyValue.isDict] at hd
  | pnum q => simp [PyValue.isDict] at hd
  | pstr s => simp [PyValue.isDict] at hd
  | plist xs => simp [PyValue.isDict] at hd

/-- C4: the proxy-aware client path (WebshareProxyConfig construction,
proxy client construction, proxy fetch) is entered if and only if
proxy_config is a mapping containing both credential keys; when
proxy_config is None or a mapping missing either key, the run is the
same as with no proxy_config at all, so the default client path is
taken and proxy construction is never invoked. -/
theorem C4_proxy_client_iff_both_credentials (env : Env) (vid : String) (cfg : PyValue) :
    ((fetch_transcript env vid cfg).2.any Event.isProxy = dictWithBothCreds cfg) ∧
    ((cfg = PyValue.pnone ∨ (cfg.isDict = true ∧ dictWithBothCreds cfg = false)) →
      fetch_transcript env vid cfg = fetch_transcript env vid PyValue.pnone) := by
  constructor
  · rw [fetch_transcript_events]
    exact clientAndFetch_proxy_events env vid cfg
  · intro h
    unfold fetch_transcript
    rw [clientAndFetch_default_of_absent env vid cfg h]

/-- Witness for C4 at a mapping missing both credential keys. -/
theorem C4_proxy_client_iff_both_credentials_witness :
    ((PyValue.pdict [("other", PyValue.pstr "x")]).isDict = true ∧
      dictWithBothCreds (PyValue.pdict [("other", PyValue.pstr "x")]) = false) ∧
    (fetch_transcript envOk "abc123"
        (PyValue.pdict [("other", PyValue.pstr "x")])).2.any Event.isProxy =
      dictWithBothCreds (PyValue.pdict [("other", PyValue.pstr "x")]) ∧
    fetch_transcript envOk "abc123" (PyValue.pdict [("other", PyValue.pstr "x")]) =
      fetch_transcript envOk "abc123" PyValue.pnone :=
  ⟨⟨rfl, by decide⟩,
    (C4_proxy_client_iff_both_credentials envOk "abc123"
      (PyValue.pdict [("other", PyValue.pstr "x")])).1,
    (C4_proxy_client_iff_both_credentials envOk "abc123"
      (PyValue.pdict [("other", PyValue.pstr "x")])).2 (Or.inr ⟨rfl, by decide⟩)⟩

/-- C6: once the arguments parsed, main always writes the result of
fetch_transcript (either variant) to the output file as ensure_ascii
false, indent 2 JSON; a successful write prints the confirmation line
naming the output file and exits 0, a failing write prints the error
line to stderr and exits 1. -/
theorem C6_always_writes_result (env : Env) (os : OSEnv) (argv : List String)
    (cfg : PyValue) (h3 : ¬ argv.length < 3)
    (hp : parsedProxy os argv = some cfg) :
    (os.openWrite (argv.getD 2 "") = Except.ok () →
      main env os argv =
        ⟨0, [], ["Transcript data written to " ++ argv.getD 2 ""],
         some ⟨argv.getD 2 "", (fetch_transcript env (argv.getD 1 "") cfg).1,
               false, 2⟩, true⟩) ∧
    (∀ e, os.openWrite (argv.getD 2 "") = Except.error e →
      main env os argv =
        ⟨1, ["Error writing to output file: " ++ e], [], Option.none, true⟩) := by
  by_cases h4 : 3 < argv.length
  · rw [parsedProxy, if_pos h4] at hp
    simp [h4] at hp
    constructor
    · intro hw
      simp at hw
      simp [main, h3, h4, hp, writeAndReport, hw]
    · intro e hw
      simp at hw
      simp [main, h3, h4, hp, writeAndReport, hw]
  · rw [parsedProxy, if_neg h4] at hp
    injection hp with hp
    subst hp
    constructor
    · intro hw
      simp at hw
      simp [main, h3, h4, writeAndReport, hw]
    · intro e hw
      simp at hw
      simp [main, h3, h4, writeAndReport, hw]

/-- Witness for C6 at a concrete successful run. -/
theorem C6_always_writes_result_witness :
    (¬ (["prog", "abc123", "out.json"] : List String).length < 3) ∧
    parsedProxy osOk ["prog", "abc123", "out.json"] = some PyValue.pnone ∧
    ((osOk.openWrite "out.json" = Except.ok () →
      main envOk osOk ["prog", "abc123", "out.json"] =
        ⟨0, [], ["Transcript data written to " ++ "out.json"],
         some ⟨"out.json", (fetch_transcript envOk "abc123" PyValue.pnone).1,
               false, 2⟩, true⟩) ∧
    (∀ e, osOk.openWrite "out.json" = Except.error e →
      main envOk osOk ["prog", "abc123", "out.json"] =
        ⟨1, ["Error writing to output file: " ++ e], [], Option.none, true⟩)) :=
  ⟨by decide, rfl,
    C6_always_writes_result envOk osOk ["prog", "abc123", "out.json"]
      PyValue.pnone (by decide) rfl⟩

/-- C7: with fewer than two positional arguments main prints the usage
message to stderr and exits 1, fetching and writing nothing. -/
theorem C7_too_few_arguments_usage (env : Env) (os : OSEnv) (argv : List String)
    (h : argv.length < 3) :
    main env os argv = ⟨1, [usageMessage], [], Option.none, false⟩ := by
  simp [main, h]

/-- Witness for C7 at a single-argument invocation. -/
theorem C7_too_few_arguments_usage_witness :
    (["prog", "abc123"] : List String).length < 3 ∧
    main envOk osOk ["prog", "abc123"] =
      ⟨1, [usageMessage], [], Option.none, false⟩ :=
  ⟨by decide, C7_too_few_arguments_usage envOk osOk ["prog", "abc123"] (by decide)⟩

/-- C8: a present third argument that json.loads rejects makes main
print the invalid-JSON message to stderr and exit 1, without invoking
fetch_transcript and without writing an output file. -/
theorem C8_unparseable_proxy_json (env : Env) (os : OSEnv) (argv : List String)
    (h4 : 3 < argv.length) (hj : os.jsonLoads (argv.getD 3 "") = Option.none) :
    main env os argv =
      ⟨1, ["Invalid proxy configuration JSON"], [], Option.none, false⟩ := by
  have h3 : ¬ argv.length < 3 := by omega
  simp [h4] at hj
  simp [main, h3, h4, hj]

/-- Witness for C8 at an invocation whose third argument is not JSON. -/
theorem C8_unparseable_proxy_json_witness :
    3 < (["prog", "abc123", "out.json", "not-json"] : List String).length ∧
    osBad.jsonLoads "not-json" = Option.none ∧
    main envOk osBad ["prog", "abc123", "out.json", "not-json"] =
      ⟨1, ["Invalid proxy configuration JSON"], [], Option.none, false⟩ :=
  ⟨by decide, rfl,
    C8_unparseable_proxy_json envOk osBad
      ["prog", "abc123", "out.json", "not-json"] (by decide) rfl⟩

end YoutubeTranscriptFetcher
